import Mathlib

/-!
Verification development for the `FaviconAnimator` module of
`js/favicon-animator.js`.

The module is a hover-triggered favicon animation: a repeating timer drives
`animateFrame`, which redraws a square outline on a 32×32 canvas in four
quartile stages of an integer counter `animationProgress ∈ [0, 100]` and
republishes the canvas as the favicon on every tick.

Embedding notes.
* Canvas coordinates are rationals (the JS arithmetic here is exact decimal
  arithmetic on small values such as `32/25`, which we model in `ℚ`).
* The path built between `beginPath()` and `stroke()` is a list of straight
  segments, one per `moveTo`/`lineTo` pair, in source order (`framePath`).
* The module's mutable closure state (`animationProgress`,
  `animationInterval`) together with the browser timer table is an explicit
  state `AState`; `setInterval` allocates a fresh timer id and adds a live
  timer, `clearInterval` removes the timer with the stored id (a no-op on a
  `null` handle), exactly as the browser would.
* The surrounding page (canvas element, its 2D context, button, favicon
  link) is a record `Doc`; `init` is a function `Doc → Bool × Doc` returning
  the success flag and the page state after the call.  The module-private
  element caches (`canvas = document.querySelector(...)` etc.) are not page
  state and are not tracked.
-/

/-- Width and height of the canvas in pixels (`CANVAS_SIZE = 32`). -/
def CANVAS_SIZE : ℕ := 32

/-- Total frames of one run (`ANIMATION_DURATION = 100`). -/
def ANIMATION_DURATION : ℕ := 100

/-- Milliseconds between frames (`ANIMATION_SPEED = 60`). -/
def ANIMATION_SPEED : ℕ := 60

/-- One straight stroke of the canvas path: the `moveTo` point paired with
the following `lineTo` point. -/
abbrev Seg : Type := (ℚ × ℚ) × (ℚ × ℚ)

/-- Geometric length of an axis-aligned segment (sum of the absolute
coordinate differences; every segment the module draws is horizontal or
vertical, where this is the Euclidean length). -/
def segLen (s : Seg) : ℚ := |s.2.1 - s.1.1| + |s.2.2 - s.1.2|

/-- The path assembled by `animateFrame` between `beginPath()` and
`stroke()` for a given value of `animationProgress`, transcribed branch by
branch from the four-stage conditional of `animateFrame`
(`js/favicon-animator.js`, lines 105–171).  A progress value outside
`[0, 100]` matches no branch and yields the empty path, as in the source. -/
def framePath (p : ℕ) : List Seg :=
  if p ≤ 25 then
    [((0, 0), (((CANVAS_SIZE : ℚ) / 25) * (p : ℚ), 0))]
  else if 25 < p ∧ p ≤ 50 then
    [((0, 0), ((CANVAS_SIZE : ℚ), 0)),
     (((CANVAS_SIZE : ℚ), 0),
      ((CANVAS_SIZE : ℚ), ((CANVAS_SIZE : ℚ) / 25) * ((p : ℚ) - 25)))]
  else if 50 < p ∧ p ≤ 75 then
    [((0, 0), ((CANVAS_SIZE : ℚ), 0)),
     (((CANVAS_SIZE : ℚ), 0), ((CANVAS_SIZE : ℚ), (CANVAS_SIZE : ℚ))),
     (((CANVAS_SIZE : ℚ), (CANVAS_SIZE : ℚ)),
      (-(((CANVAS_SIZE : ℚ) / 25) * ((p : ℚ) - 75)), (CANVAS_SIZE : ℚ)))]
  else if 75 < p ∧ p ≤ ANIMATION_DURATION then
    [((0, 0), ((CANVAS_SIZE : ℚ), 0)),
     (((CANVAS_SIZE : ℚ), 0), ((CANVAS_SIZE : ℚ), (CANVAS_SIZE : ℚ))),
     (((CANVAS_SIZE : ℚ), (CANVAS_SIZE : ℚ)), (0, (CANVAS_SIZE : ℚ))),
     ((0, (CANVAS_SIZE : ℚ)),
      (0, -(((CANVAS_SIZE : ℚ) / 25) * ((p : ℚ) - (ANIMATION_DURATION : ℚ)))))]
  else []

/-- A live repeating browser timer: its handle and its period in
milliseconds.  Every timer the module creates runs `animateFrame`. -/
structure Timer where
  id : ℕ
  period : ℕ
deriving DecidableEq, Repr

/-- The animator's mutable closure state plus the observable browser state
it drives: the progress counter, the stored interval handle
(`animationInterval`, `null` modelled as `none`), the set of live timers in
the browser, a fresh-handle counter, the `disabled` attribute of the
trigger button, and the favicon image (the last stroked path, `none` before
any tick). -/
structure AState where
  animationProgress : ℕ
  animationInterval : Option ℕ
  liveTimers : List Timer
  nextTimerId : ℕ
  buttonDisabled : Bool
  faviconImage : Option (List Seg)
deriving DecidableEq, Repr

/-- `clearInterval` on a stored handle: removes the timer with that id;
a `null` handle is a no-op. -/
def clearIntervalModel (h : Option ℕ) (ts : List Timer) : List Timer :=
  match h with
  | none => ts
  | some i => ts.filter (fun t => t.id != i)

/-- One tick of the animation (`animateFrame`, lines 89–189): build and
stroke the path for the current progress, publish it as the favicon, then
either stop (clear the stored interval and null the handle) when progress
equals `ANIMATION_DURATION`, or increment progress by one. -/
def animateFrame (s : AState) : AState :=
  let img := framePath s.animationProgress
  if s.animationProgress = ANIMATION_DURATION then
    { s with faviconImage := some img,
             liveTimers := clearIntervalModel s.animationInterval s.liveTimers,
             animationInterval := none }
  else
    { s with faviconImage := some img,
             animationProgress := s.animationProgress + 1 }

/-- The `mouseenter` handler (`handleButtonHover`, lines 209–218): reset
progress to 0, start a fresh repeating timer with period `ANIMATION_SPEED`
(overwriting the stored handle without clearing it), and set the button's
`disabled` attribute. -/
def handleButtonHover (s : AState) : AState :=
  { s with animationProgress := 0,
           animationInterval := some s.nextTimerId,
           liveTimers := { id := s.nextTimerId, period := ANIMATION_SPEED } :: s.liveTimers,
           nextTimerId := s.nextTimerId + 1,
           buttonDisabled := true }

/-- Module state at load: progress 0, no interval, no live timers, button
enabled, favicon untouched. -/
def initialAState : AState :=
  { animationProgress := 0, animationInterval := none, liveTimers := [],
    nextTimerId := 0, buttonDisabled := false, faviconImage := none }

/-- One event-loop step of the animator: either the trigger fires
(`mouseenter` on the button) or some live timer fires its callback, which
is always `animateFrame`. -/
inductive AStep : AState → AState → Prop where
  | hover (s : AState) : AStep s (handleButtonHover s)
  | tick (s : AState) (h : s.liveTimers ≠ []) : AStep s (animateFrame s)

/-- States reachable from the load state by trigger and tick steps. -/
inductive Reachable : AState → Prop where
  | start : Reachable initialAState
  | next {s t : AState} : Reachable s → AStep s t → Reachable t

/-- The page state `init` reads and mutates: presence of the three queried
elements, the canvas size attributes, availability of the 2D context, the
context's stroke configuration, and the button's `disabled` attribute and
`mouseenter` listener. -/
structure Doc where
  hasCanvas : Bool
  canvasWidth : ℕ
  canvasHeight : ℕ
  has2dContext : Bool
  lineWidth : ℕ
  strokeStyleGradient : Bool
  hasButton : Bool
  buttonDisabled : Bool
  buttonHasMouseenterListener : Bool
  hasFavicon : Bool
deriving DecidableEq, Repr

/-- `setupCanvas` (lines 51–77): fail if the canvas is absent or
`getContext("2d")` returns `null`; otherwise install the gradient stroke
style and the 8px line width. -/
def setupCanvas (d : Doc) : Bool × Doc :=
  if !d.hasCanvas then (false, d)
  else if !d.has2dContext then (false, d)
  else (true, { d with strokeStyleGradient := true, lineWidth := 8 })

/-- `setupButton` (lines 195–203): attach the `mouseenter` listener when
the button is present, otherwise only log. -/
def setupButton (d : Doc) : Doc :=
  if !d.hasButton then d
  else { d with buttonHasMouseenterListener := true }

/-- `resetButton` (lines 224–228): remove a leftover `disabled` attribute. -/
def resetButton (d : Doc) : Doc :=
  if d.hasButton && d.buttonDisabled then { d with buttonDisabled := false } else d

/-- `init` (lines 242–271): query the three elements and return `false` at
once if any is missing; otherwise set the canvas size attributes to
`CANVAS_SIZE`, run `setupCanvas` (returning `false` on failure, the size
attributes already written), then attach the listener, clear a leftover
`disabled` attribute, and return `true`. -/
def init (d : Doc) : Bool × Doc :=
  if !d.hasCanvas || !d.hasButton || !d.hasFavicon then (false, d)
  else
    let d1 : Doc := { d with canvasWidth := CANVAS_SIZE, canvasHeight := CANVAS_SIZE }
    match setupCanvas d1 with
    | (false, d2) => (false, d2)
    | (true, d2) => (true, resetButton (setupButton d2))

/-- A state at the last tick of a run: progress at the terminal value, the
run's timer still live and its handle stored. -/
def terminalAState : AState :=
  { animationProgress := 100, animationInterval := some 0,
    liveTimers := [{ id := 0, period := 60 }], nextTimerId := 1,
    buttonDisabled := true, faviconImage := none }

/-- A page with no canvas element (button and favicon present). -/
def docNoCanvas : Doc :=
  { hasCanvas := false, canvasWidth := 0, canvasHeight := 0,
    has2dContext := true, lineWidth := 0, strokeStyleGradient := false,
    hasButton := true, buttonDisabled := false,
    buttonHasMouseenterListener := false, hasFavicon := true }

/-- A page with the three elements present but no 2D context, the canvas
size attributes not yet at `CANVAS_SIZE`. -/
def docNoContext : Doc :=
  { hasCanvas := true, canvasWidth := 7, canvasHeight := 7,
    has2dContext := false, lineWidth := 0, strokeStyleGradient := false,
    hasButton := true, buttonDisabled := false,
    buttonHasMouseenterListener := false, hasFavicon := true }

/-- Claim C5: for every `progress` in `[0, 25]` the frame-draw step draws a
single horizontal top-edge segment from the top-left corner whose length
equals `(CANVAS_SIZE/25) × progress`; that length lies in
`[0, CANVAS_SIZE]` and equals `CANVAS_SIZE` exactly at `progress = 25`, so
the implicit clamp is never exceeded. -/
theorem framePath_top_stage (p : ℕ) (h : p ≤ 25) :
    framePath p = [((0, 0), (((CANVAS_SIZE : ℚ) / 25) * (p : ℚ), 0))] ∧
    segLen ((0, 0), (((CANVAS_SIZE : ℚ) / 25) * (p : ℚ), 0)) =
      ((CANVAS_SIZE : ℚ) / 25) * (p : ℚ) ∧
    0 ≤ ((CANVAS_SIZE : ℚ) / 25) * (p : ℚ) ∧
    ((CANVAS_SIZE : ℚ) / 25) * (p : ℚ) ≤ (CANVAS_SIZE : ℚ) ∧
    (p = 25 → ((CANVAS_SIZE : ℚ) / 25) * (p : ℚ) = (CANVAS_SIZE : ℚ)) := by
  have hC : (CANVAS_SIZE : ℚ) = 32 := by norm_num [CANVAS_SIZE]
  have hp25 : (p : ℚ) ≤ 25 := by exact_mod_cast h
  have hp0 : (0 : ℚ) ≤ (p : ℚ) := by positivity
  have hnn : 0 ≤ ((CANVAS_SIZE : ℚ) / 25) * (p : ℚ) := by rw [hC]; positivity
  refine ⟨?_, ?_, hnn, ?_, ?_⟩
  · simp only [framePath, if_pos h]
  · simp only [segLen]
    rw [sub_zero, sub_zero, abs_of_nonneg hnn]
    norm_num
  · rw [hC]; nlinarith
  · intro hp
    subst hp
    rw [hC]; norm_num

/-- Witness for `framePath_top_stage` at `progress = 12` (the spec's
Scenario A: drawn length `(32/25) × 12 = 15.36`). -/
theorem framePath_top_stage_witness :
    (12 ≤ 25) ∧
    framePath 12 = [((0, 0), (((CANVAS_SIZE : ℚ) / 25) * (12 : ℚ), 0))] ∧
    ((CANVAS_SIZE : ℚ) / 25) * (12 : ℚ) = 384 / 25 :=
  ⟨by norm_num, (framePath_top_stage 12 (by norm_num)).1,
   by norm_num [CANVAS_SIZE]⟩

/-- Claim C3: for every `progress` with `50 < progress ≤ 75` the frame-draw
step draws the top and right edges in full plus a bottom segment anchored
at the bottom-right corner; the quantity `(CANVAS_SIZE/25) × (progress−75)`
is nonpositive, its negation is the segment's far endpoint (so the segment
extends leftward from the right edge, full exactly at `progress = 75`), and
the drawn length is the full edge offset by that negative value,
`CANVAS_SIZE + (CANVAS_SIZE/25) × (progress−75) = (CANVAS_SIZE/25) ×
(progress−50)`, growing with `progress`. -/
theorem framePath_bottom_stage (p : ℕ) (h1 : 50 < p) (h2 : p ≤ 75) :
    framePath p =
      [((0, 0), ((CANVAS_SIZE : ℚ), 0)),
       (((CANVAS_SIZE : ℚ), 0), ((CANVAS_SIZE : ℚ), (CANVAS_SIZE : ℚ))),
       (((CANVAS_SIZE : ℚ), (CANVAS_SIZE : ℚ)),
        (-(((CANVAS_SIZE : ℚ) / 25) * ((p : ℚ) - 75)), (CANVAS_SIZE : ℚ)))] ∧
    ((CANVAS_SIZE : ℚ) / 25) * ((p : ℚ) - 75) ≤ 0 ∧
    0 ≤ -(((CANVAS_SIZE : ℚ) / 25) * ((p : ℚ) - 75)) ∧
    -(((CANVAS_SIZE : ℚ) / 25) * ((p : ℚ) - 75)) < (CANVAS_SIZE : ℚ) ∧
    segLen (((CANVAS_SIZE : ℚ), (CANVAS_SIZE : ℚ)),
        (-(((CANVAS_SIZE : ℚ) / 25) * ((p : ℚ) - 75)), (CANVAS_SIZE : ℚ))) =
      (CANVAS_SIZE : ℚ) + ((CANVAS_SIZE : ℚ) / 25) * ((p : ℚ) - 75) ∧
    (CANVAS_SIZE : ℚ) + ((CANVAS_SIZE : ℚ) / 25) * ((p : ℚ) - 75) =
      ((CANVAS_SIZE : ℚ) / 25) * ((p : ℚ) - 50) := by
  have hC : (CANVAS_SIZE : ℚ) = 32 := by norm_num [CANVAS_SIZE]
  have hp1 : (50 : ℚ) < (p : ℚ) := by exact_mod_cast h1
  have hp2 : (p : ℚ) ≤ 75 := by exact_mod_cast h2
  have hnp : ((CANVAS_SIZE : ℚ) / 25) * ((p : ℚ) - 75) ≤ 0 := by
    rw [hC]; nlinarith
  have hlt : -(((CANVAS_SIZE : ℚ) / 25) * ((p : ℚ) - 75)) < (CANVAS_SIZE : ℚ) := by
    rw [hC]; nlinarith
  refine ⟨?_, hnp, by linarith, hlt, ?_, by ring⟩
  · simp only [framePath, if_neg (by omega : ¬ p ≤ 25),
      if_neg (by omega : ¬ (25 < p ∧ p ≤ 50)),
      if_pos (by omega : 50 < p ∧ p ≤ 75)]
  · simp only [segLen]
    rw [sub_self, abs_zero, add_zero,
      abs_of_nonpos (by linarith :
        -(((CANVAS_SIZE : ℚ) / 25) * ((p : ℚ) - 75)) - (CANVAS_SIZE : ℚ) ≤ 0)]
    ring

/-- Witness for `framePath_bottom_stage` at `progress = 60`: the far
endpoint is `-(32/25 × (60−75)) = 96/5 = 19.2` and the drawn length is
`32/5 × 2 = 12.8`. -/
theorem framePath_bottom_stage_witness :
    (50 < 60 ∧ 60 ≤ 75) ∧
    framePath 60 =
      [((0, 0), ((CANVAS_SIZE : ℚ), 0)),
       (((CANVAS_SIZE : ℚ), 0), ((CANVAS_SIZE : ℚ), (CANVAS_SIZE : ℚ))),
       (((CANVAS_SIZE : ℚ), (CANVAS_SIZE : ℚ)),
        (-(((CANVAS_SIZE : ℚ) / 25) * ((60 : ℚ) - 75)), (CANVAS_SIZE : ℚ)))] ∧
    -(((CANVAS_SIZE : ℚ) / 25) * ((60 : ℚ) - 75)) = 96 / 5 :=
  ⟨by norm_num, (framePath_bottom_stage 60 (by norm_num) (by norm_num)).1,
   by norm_num [CANVAS_SIZE]⟩

/-- Claim C4: for every `progress` with `75 < progress ≤ 100` the
frame-draw step draws the top, right and bottom edges in full plus a left
segment anchored at the bottom-left corner; the quantity
`(CANVAS_SIZE/25) × (progress−100)` is nonpositive, its negation is the
segment's far endpoint (so the segment extends upward from the bottom
edge, reaching the top exactly at `progress = 100`), and the drawn length
is the full edge offset by that negative value,
`CANVAS_SIZE + (CANVAS_SIZE/25) × (progress−100) = (CANVAS_SIZE/25) ×
(progress−75)`, growing with `progress`. -/
theorem framePath_left_stage (p : ℕ) (h1 : 75 < p) (h2 : p ≤ 100) :
    framePath p =
      [((0, 0), ((CANVAS_SIZE : ℚ), 0)),
       (((CANVAS_SIZE : ℚ), 0), ((CANVAS_SIZE : ℚ), (CANVAS_SIZE : ℚ))),
       (((CANVAS_SIZE : ℚ), (CANVAS_SIZE : ℚ)), (0, (CANVAS_SIZE : ℚ))),
       ((0, (CANVAS_SIZE : ℚ)),
        (0, -(((CANVAS_SIZE : ℚ) / 25) * ((p : ℚ) - 100))))] ∧
    ((CANVAS_SIZE : ℚ) / 25) * ((p : ℚ) - 100) ≤ 0 ∧
    0 ≤ -(((CANVAS_SIZE : ℚ) / 25) * ((p : ℚ) - 100)) ∧
    -(((CANVAS_SIZE : ℚ) / 25) * ((p : ℚ) - 100)) < (CANVAS_SIZE : ℚ) ∧
    segLen ((0, (CANVAS_SIZE : ℚ)),
        (0, -(((CANVAS_SIZE : ℚ) / 25) * ((p : ℚ) - 100)))) =
      (CANVAS_SIZE : ℚ) + ((CANVAS_SIZE : ℚ) / 25) * ((p : ℚ) - 100) ∧
    (CANVAS_SIZE : ℚ) + ((CANVAS_SIZE : ℚ) / 25) * ((p : ℚ) - 100) =
      ((CANVAS_SIZE : ℚ) / 25) * ((p : ℚ) - 75) := by
  have hC : (CANVAS_SIZE : ℚ) = 32 := by norm_num [CANVAS_SIZE]
  have hp1 : (75 : ℚ) < (p : ℚ) := by exact_mod_cast h1
  have hp2 : (p : ℚ) ≤ 100 := by exact_mod_cast h2
  have hnp : ((CANVAS_SIZE : ℚ) / 25) * ((p : ℚ) - 100) ≤ 0 := by
    rw [hC]; nlinarith
  have hlt : -(((CANVAS_SIZE : ℚ) / 25) * ((p : ℚ) - 100)) < (CANVAS_SIZE : ℚ) := by
    rw [hC]; nlinarith
  refine ⟨?_, hnp, by linarith, hlt, ?_, by ring⟩
  · simp only [framePath, if_neg (by omega : ¬ p ≤ 25),
      if_neg (by omega : ¬ (25 < p ∧ p ≤ 50)),
      if_neg (by omega : ¬ (50 < p ∧ p ≤ 75)),
      if_pos (show 75 < p ∧ p ≤ ANIMATION_DURATION by
        simp only [ANIMATION_DURATION]; omega)]
    norm_num [ANIMATION_DURATION]
  · simp only [segLen]
    rw [sub_self, abs_zero, zero_add,
      abs_of_nonpos (by linarith :
        -(((CANVAS_SIZE : ℚ) / 25) * ((p : ℚ) - 100)) - (CANVAS_SIZE : ℚ) ≤ 0)]
    ring

/-- Witness for `framePath_left_stage` at `progress = 90`: the far endpoint
is `-(32/25 × (90−100)) = 64/5 = 12.8` up from the top. -/
theorem framePath_left_stage_witness :
    (75 < 90 ∧ 90 ≤ 100) ∧
    framePath 90 =
      [((0, 0), ((CANVAS_SIZE : ℚ), 0)),
       (((CANVAS_SIZE : ℚ), 0), ((CANVAS_SIZE : ℚ), (CANVAS_SIZE : ℚ))),
       (((CANVAS_SIZE : ℚ), (CANVAS_SIZE : ℚ)), (0, (CANVAS_SIZE : ℚ))),
       ((0, (CANVAS_SIZE : ℚ)),
        (0, -(((CANVAS_SIZE : ℚ) / 25) * ((90 : ℚ) - 100))))] ∧
    -(((CANVAS_SIZE : ℚ) / 25) * ((90 : ℚ) - 100)) = 64 / 5 :=
  ⟨by norm_num, (framePath_left_stage 90 (by norm_num) (by norm_num)).1,
   by norm_num [CANVAS_SIZE]⟩

/-- Claim C1: on the tick where progress equals 100 the frame-draw step
publishes the favicon as the complete closed square outline (all four edges
at full length), clears the interval and nulls the stored handle, leaves
the button's `disabled` attribute untouched, and — once the run's timer is
gone — no further tick step is possible, only a new trigger. -/
theorem animateFrame_terminal_tick (s : AState) (i : ℕ)
    (hp : s.animationProgress = ANIMATION_DURATION)
    (ht : s.animationInterval = some i)
    (hl : s.liveTimers = [{ id := i, period := ANIMATION_SPEED }]) :
    (animateFrame s).faviconImage =
      some [((0, 0), ((32 : ℚ), 0)), (((32 : ℚ), 0), ((32 : ℚ), (32 : ℚ))),
            (((32 : ℚ), (32 : ℚ)), (0, (32 : ℚ))), ((0, (32 : ℚ)), (0, 0))] ∧
    (animateFrame s).animationInterval = none ∧
    (animateFrame s).liveTimers = [] ∧
    (animateFrame s).buttonDisabled = s.buttonDisabled ∧
    (∀ t : AState, AStep (animateFrame s) t →
      t = handleButtonHover (animateFrame s)) := by
  have h100 : framePath 100 =
      [((0, 0), ((32 : ℚ), 0)), (((32 : ℚ), 0), ((32 : ℚ), (32 : ℚ))),
       (((32 : ℚ), (32 : ℚ)), (0, (32 : ℚ))), ((0, (32 : ℚ)), (0, 0))] := by
    norm_num [framePath, CANVAS_SIZE, ANIMATION_DURATION]
  have key : animateFrame s =
      { s with faviconImage := some (framePath 100),
               liveTimers := [], animationInterval := none } := by
    unfold animateFrame
    rw [if_pos hp, hp, ht, hl]
    simp [clearIntervalModel, ANIMATION_DURATION]
  refine ⟨?_, ?_, ?_, ?_, ?_⟩
  · rw [key]; simpa using congrArg some h100
  · rw [key]
  · rw [key]
  · rw [key]
  · intro t hstep
    cases hstep with
    | hover => rfl
    | tick h => rw [key] at h; simp at h

/-- Witness for `animateFrame_terminal_tick` at the concrete state
`terminalAState`. -/
theorem animateFrame_terminal_tick_witness :
    terminalAState.animationProgress = ANIMATION_DURATION ∧
    (animateFrame terminalAState).animationInterval = none ∧
    (animateFrame terminalAState).liveTimers = [] ∧
    (animateFrame terminalAState).buttonDisabled = true := by
  have h := animateFrame_terminal_tick terminalAState 0 rfl rfl rfl
  exact ⟨rfl, h.2.1, h.2.2.1, h.2.2.2.1.trans rfl⟩

/-- Claim C2: every state reachable by trigger and tick steps has
`animationProgress ≤ 100` (with `ℕ` the lower bound 0 is built in); the
trigger resets progress to 0 and no tick ever produces 0, so resets happen
exactly at run starts; a tick with progress below 100 increments it by
exactly 1; and the tick at 100 leaves progress unchanged and clears the
stored interval, stopping the loop. -/
theorem progress_invariant :
    (∀ s : AState, Reachable s → s.animationProgress ≤ ANIMATION_DURATION) ∧
    (∀ s : AState, (handleButtonHover s).animationProgress = 0) ∧
    (∀ s : AState, (animateFrame s).animationProgress ≠ 0) ∧
    (∀ s : AState, s.animationProgress < ANIMATION_DURATION →
      (animateFrame s).animationProgress = s.animationProgress + 1) ∧
    (∀ s : AState, s.animationProgress = ANIMATION_DURATION →
      (animateFrame s).animationProgress = s.animationProgress ∧
      (animateFrame s).animationInterval = none) := by
  refine ⟨?_, fun s => rfl, ?_, ?_, ?_⟩
  · intro s hreach
    induction hreach with
    | start => norm_num [initialAState, ANIMATION_DURATION]
    | next hr hstep ih =>
      cases hstep with
      | hover => simp [handleButtonHover]
      | tick h =>
        simp only [animateFrame]
        split
        · simpa using ih
        · simp only [ANIMATION_DURATION] at ih ⊢
          rename_i hne
          simp only [ANIMATION_DURATION] at hne
          simp only [AState.mk.injEq] at *
          omega
  · intro s
    simp only [animateFrame]
    split
    · rename_i heq
      simp [heq, ANIMATION_DURATION]
    · simp
  · intro s hlt
    simp only [animateFrame]
    rw [if_neg (by omega : ¬ s.animationProgress = ANIMATION_DURATION)]
  · intro s heq
    simp only [animateFrame]
    rw [if_pos heq]
    exact ⟨rfl, rfl⟩

/-- Witness for `progress_invariant`: the invariant at the reachable state
after one hover, and the increment law at the load state. -/
theorem progress_invariant_witness :
    (handleButtonHover initialAState).animationProgress ≤ ANIMATION_DURATION ∧
    (animateFrame initialAState).animationProgress =
      initialAState.animationProgress + 1 :=
  ⟨progress_invariant.1 _
      (Reachable.next Reachable.start (AStep.hover initialAState)),
   progress_invariant.2.2.2.1 initialAState
      (by norm_num [initialAState, ANIMATION_DURATION])⟩

/-- Claim C6 counterexample: on the tick after the first quartile boundary
(`progress = 26`) the next quartile's segment does not start at length 0 —
the right-edge stroke already has length `32/25` (= `CANVAS_SIZE/25`). -/
theorem next_quartile_nonzero_at_26 :
    framePath 26 =
      [((0, 0), ((32 : ℚ), 0)), (((32 : ℚ), 0), ((32 : ℚ), 32 / 25))] ∧
    segLen (((32 : ℚ), 0), ((32 : ℚ), 32 / 25)) = 32 / 25 ∧
    (32 : ℚ) / 25 ≠ 0 := by
  refine ⟨?_, ?_, by norm_num⟩
  · norm_num [framePath, CANVAS_SIZE]
  · norm_num [segLen]

/-- Claim C6 (amended): at each quartile boundary `progress = 25, 50, 75`
the segment belonging to that quartile is drawn at its maximum (full edge
length `CANVAS_SIZE = 32`), and on the following tick
(`progress = 26, 51, 76`) the next quartile's partial segment has length
`CANVAS_SIZE/25 = 32/25` — one tick's increment above the zero base its
formula takes at the boundary, not length 0. -/
theorem quartile_boundary_ticks :
    (framePath 25 = [((0, 0), ((32 : ℚ), 0))] ∧
      segLen ((0, 0), ((32 : ℚ), 0)) = 32) ∧
    (framePath 50 =
        [((0, 0), ((32 : ℚ), 0)), (((32 : ℚ), 0), ((32 : ℚ), (32 : ℚ)))] ∧
      segLen (((32 : ℚ), 0), ((32 : ℚ), (32 : ℚ))) = 32) ∧
    (framePath 75 =
        [((0, 0), ((32 : ℚ), 0)), (((32 : ℚ), 0), ((32 : ℚ), (32 : ℚ))),
         (((32 : ℚ), (32 : ℚ)), (0, (32 : ℚ)))] ∧
      segLen (((32 : ℚ), (32 : ℚ)), (0, (32 : ℚ))) = 32) ∧
    (framePath 26 =
        [((0, 0), ((32 : ℚ), 0)), (((32 : ℚ), 0), ((32 : ℚ), 32 / 25))] ∧
      segLen (((32 : ℚ), 0), ((32 : ℚ), 32 / 25)) = 32 / 25) ∧
    (framePath 51 =
        [((0, 0), ((32 : ℚ), 0)), (((32 : ℚ), 0), ((32 : ℚ), (32 : ℚ))),
         (((32 : ℚ), (32 : ℚ)), (768 / 25, (32 : ℚ)))] ∧
      segLen (((32 : ℚ), (32 : ℚ)), (768 / 25, (32 : ℚ))) = 32 / 25) ∧
    (framePath 76 =
        [((0, 0), ((32 : ℚ), 0)), (((32 : ℚ), 0), ((32 : ℚ), (32 : ℚ))),
         (((32 : ℚ), (32 : ℚ)), (0, (32 : ℚ))), ((0, (32 : ℚ)), (0, 768 / 25))] ∧
      segLen ((0, (32 : ℚ)), (0, 768 / 25)) = 32 / 25) := by
  refine ⟨⟨?_, ?_⟩, ⟨?_, ?_⟩, ⟨?_, ?_⟩, ⟨?_, ?_⟩, ⟨?_, ?_⟩, ⟨?_, ?_⟩⟩ <;>
    norm_num [framePath, segLen, CANVAS_SIZE, ANIMATION_DURATION, abs_of_nonneg,
      abs_of_nonpos]

/-- Claim C7: firing the trigger always resets progress to 0 (whatever the
in-flight value), stores a fresh repeating timer handle with the fixed
60 ms period (`ANIMATION_SPEED`), sets the button's `disabled` attribute,
and the new timer's firing is a tick step invoking the frame-draw step
`animateFrame`. -/
theorem handleButtonHover_starts_run (s : AState) :
    (handleButtonHover s).animationProgress = 0 ∧
    (handleButtonHover s).animationInterval = some s.nextTimerId ∧
    (handleButtonHover s).liveTimers =
      { id := s.nextTimerId, period := ANIMATION_SPEED } :: s.liveTimers ∧
    ANIMATION_SPEED = 60 ∧
    (handleButtonHover s).buttonDisabled = true ∧
    AStep (handleButtonHover s) (animateFrame (handleButtonHover s)) :=
  ⟨rfl, rfl, rfl, rfl, rfl,
   AStep.tick (handleButtonHover s) (by simp [handleButtonHover])⟩

/-- Claim C8 counterexample: the trigger handler does not cancel the prior
pending timer — firing the trigger twice from the load state reaches (by
trigger steps alone) a state with two live timers. -/
theorem double_hover_two_live_timers :
    Reachable (handleButtonHover (handleButtonHover initialAState)) ∧
    (handleButtonHover (handleButtonHover initialAState)).liveTimers =
      [{ id := 1, period := 60 }, { id := 0, period := 60 }] ∧
    (handleButtonHover (handleButtonHover initialAState)).liveTimers.length = 2 :=
  ⟨Reachable.next (Reachable.next Reachable.start (AStep.hover initialAState))
      (AStep.hover (handleButtonHover initialAState)),
   rfl, rfl⟩

/-- Claim C8 (amended): starting a new run does not cancel the prior
pending timer; the trigger handler pushes a fresh timer onto the live set
and only overwrites the stored handle, so a trigger fired while at least
one timer is live leaves at least two live timers.  (Only the normal end
of a run, the tick at progress 100, clears a timer.) -/
theorem hover_keeps_prior_timers (s : AState) (h : s.liveTimers ≠ []) :
    (handleButtonHover s).liveTimers =
      { id := s.nextTimerId, period := ANIMATION_SPEED } :: s.liveTimers ∧
    2 ≤ (handleButtonHover s).liveTimers.length := by
  refine ⟨rfl, ?_⟩
  have hpos := List.length_pos.mpr h
  simp only [handleButtonHover, List.length_cons]
  omega

/-- Witness for `hover_keeps_prior_timers`: after one hover a timer is
live, and a second hover leaves two live timers. -/
theorem hover_keeps_prior_timers_witness :
    (handleButtonHover initialAState).liveTimers ≠ [] ∧
    2 ≤ (handleButtonHover (handleButtonHover initialAState)).liveTimers.length :=
  ⟨by simp [handleButtonHover],
   (hover_keeps_prior_timers (handleButtonHover initialAState)
      (by simp [handleButtonHover])).2⟩

/-- Claim C9: whenever any of the three required collaborators (canvas,
button, favicon link) is absent, `init` returns `false`, leaves the page
completely unchanged (so no `mouseenter` listener is attached and no size
attribute is written), and a repeated call on the resulting page returns
`false` again. -/
theorem init_missing_element (d : Doc)
    (h : d.hasCanvas = false ∨ d.hasButton = false ∨ d.hasFavicon = false) :
    (init d).1 = false ∧
    (init d).2 = d ∧
    (init d).2.buttonHasMouseenterListener = d.buttonHasMouseenterListener ∧
    (init ((init d).2)).1 = false := by
  have hcond : (!d.hasCanvas || !d.hasButton || !d.hasFavicon) = true := by
    rcases h with h | h | h <;> simp [h]
  have h1 : init d = (false, d) := by
    unfold init
    rw [if_pos hcond]
  refine ⟨by rw [h1], by rw [h1], by rw [h1], ?_⟩
  rw [h1, h1]

/-- Witness for `init_missing_element` on `docNoCanvas` (the spec's
Scenario D: missing drawable surface). -/
theorem init_missing_element_witness :
    docNoCanvas.hasCanvas = false ∧
    (init docNoCanvas).1 = false ∧
    (init docNoCanvas).2 = docNoCanvas := by
  have h := init_missing_element docNoCanvas (Or.inl rfl)
  exact ⟨rfl, h.1, h.2.1⟩

/-- Claim C10 (implicit): when all three elements are found but the 2D
drawing context is unavailable, `init` returns `false` and attaches no
listener, but has already written the canvas size attributes
(`CANVAS_SIZE = 32`) before detecting the failure — the failed
initialization is exactly the input page with the two size attributes
overwritten, so the failure is not atomic. -/
theorem init_no_context_mutates_size (d : Doc)
    (hc : d.hasCanvas = true) (hb : d.hasButton = true)
    (hf : d.hasFavicon = true) (h2 : d.has2dContext = false) :
    (init d).1 = false ∧
    (init d).2.buttonHasMouseenterListener = d.buttonHasMouseenterListener ∧
    (init d).2.canvasWidth = CANVAS_SIZE ∧
    (init d).2.canvasHeight = CANVAS_SIZE ∧
    (init d).2.lineWidth = d.lineWidth ∧
    (init d).2.buttonDisabled = d.buttonDisabled ∧
    (init d).2 =
      { d with canvasWidth := CANVAS_SIZE, canvasHeight := CANVAS_SIZE } := by
  have h1 : init d =
      (false, { d with canvasWidth := CANVAS_SIZE, canvasHeight := CANVAS_SIZE }) := by
    unfold init
    rw [if_neg (by simp [hc, hb, hf])]
    simp only [setupCanvas, hc, h2, Bool.not_true, Bool.not_false]
    rfl
  refine ⟨by rw [h1], by rw [h1], by rw [h1], by rw [h1], by rw [h1],
    by rw [h1], by rw [h1]⟩

/-- Witness for `init_no_context_mutates_size` on `docNoContext`, whose
size attributes start at 7 ≠ 32, exhibiting the mutation. -/
theorem init_no_context_mutates_size_witness :
    (init docNoContext).1 = false ∧
    (init docNoContext).2.canvasWidth = CANVAS_SIZE ∧
    docNoContext.canvasWidth ≠ CANVAS_SIZE ∧
    (init docNoContext).2.buttonHasMouseenterListener = false := by
  have h := init_no_context_mutates_size docNoContext rfl rfl rfl rfl
  exact ⟨h.1, h.2.2.1, by norm_num [docNoContext, CANVAS_SIZE], h.2.1.trans rfl⟩
